import Mathlib

/-!
Verification of the Swift-CANyonero repository: a shallow embedding of the
adapter-protocol PDU codec (`Sources/libCANyonero/Protocol.cpp` and
`Sources/ecuconnect-j2534/src/canyonero_protocol.cpp`), the ISO-TP
transceivers (`ISOTP.hpp`, `ISOTPFD.hpp`), the K-Line transceiver
(`KLine.hpp`) and the device manager's `readMsgs` (`ecuconnect.cpp`),
together with proofs about them.

Machine integers are modelled as `Nat` with explicit `% 2^w` where the C++
performs a narrowing cast or where overflow can occur; byte sequences
(`std::vector<uint8_t>`) are `List Nat` whose elements are byte values.
-/

/-- Byte sequence, `std::vector<uint8_t>` (`CANyonero::Bytes`). -/
abbrev Bytes := List Nat

/-! ## PDU type tags (Protocol.hpp, `enum class PDUType : uint8_t`) -/

def PDUType.ping : Nat := 0x10
def PDUType.requestInfo : Nat := 0x11
def PDUType.readVoltage : Nat := 0x12
def PDUType.openChannel : Nat := 0x30
def PDUType.closeChannel : Nat := 0x31
def PDUType.send : Nat := 0x33
def PDUType.setArbitration : Nat := 0x34
def PDUType.startPeriodicMessage : Nat := 0x35
def PDUType.endPeriodicMessage : Nat := 0x36
def PDUType.sendCompressed : Nat := 0x37
def PDUType.ok : Nat := 0x80
def PDUType.channelOpened : Nat := 0xB0
def PDUType.channelClosed : Nat := 0xB1
def PDUType.received : Nat := 0xB2

/-- A PDU: a type tag byte and a payload (`class PDU` in Protocol.hpp;
`class PDU` in canyonero_protocol.h). The cached `_length` field always
equals `payload.length` truncated to `uint16_t` and is not modelled
separately. -/
structure PDU where
  type : Nat
  payload : Bytes
deriving Repr, DecidableEq

/-- Big-endian serialization of a `uint32_t` (`vector_append_uint32` in
Helpers.hpp / `appendUint32BE` in canyonero_protocol.cpp). -/
def appendUint32BE (v : Nat) : Bytes :=
  [(v >>> 24) % 256, (v >>> 16) % 256, (v >>> 8) % 256, v % 256]

/-- The 14-byte CAN arbitration structure (Protocol.hpp `struct Arbitration`). -/
structure Arbitration where
  request : Nat
  requestExtension : Nat
  replyPattern : Nat
  replyMask : Nat
  replyExtension : Nat
deriving Repr, DecidableEq

/-- `Arbitration::to_vector` (Protocol.cpp): request u32 ‖ requestExtension u8 ‖
replyPattern u32 ‖ replyMask u32 ‖ replyExtension u8. -/
def Arbitration.toBytes (a : Arbitration) : Bytes :=
  appendUint32BE a.request ++ [a.requestExtension % 256] ++
  appendUint32BE a.replyPattern ++ appendUint32BE a.replyMask ++
  [a.replyExtension % 256]

/-! ## libCANyonero PDU constructors and accessors (Protocol.cpp) -/

/-- `PDU::closeChannel` (Protocol.cpp lines 233-236). The source constructs
`PDU(PDUType::openChannel, payload)` — the `openChannel` tag, not
`closeChannel`. -/
def PDU.closeChannel (handle : Nat) : PDU :=
  { type := PDUType.openChannel, payload := List.replicate 1 (handle % 256) }

/-- `PDU::startPeriodicMessage` (Protocol.cpp lines 263-268):
interval byte ‖ 14-byte arbitration ‖ data. -/
def PDU.startPeriodicMessage (interval : Nat) (arb : Arbitration) (data : Bytes) : PDU :=
  { type := PDUType.startPeriodicMessage
    payload := List.replicate 1 (interval % 256) ++ arb.toBytes ++ data }

/-- `PDU::milliseconds` (Protocol.cpp lines 101-105): reads `_payload[0]`
into a `uint16_t` and returns `interval * 500` as `uint16_t` — the
multiplication result is truncated modulo 2^16 by the return type. -/
def PDU.milliseconds (p : PDU) : Nat :=
  ((p.payload.getD 0 0) * 500) % 65536

/-- `PDU::frame` (Protocol.cpp lines 179-189): ATT `0x1F` ‖ type ‖
payload length big-endian u16 ‖ payload. -/
def PDU.frame (p : PDU) : Bytes :=
  [0x1F, p.type % 256, (p.payload.length >>> 8) % 256, p.payload.length % 256] ++ p.payload

/-- `PDU::containsPDU` (Protocol.cpp lines 196-206). Negative: garbage byte
count to remove; 0: need more data; positive: size of a complete PDU. -/
def PDU.containsPDU (bytes : Bytes) : Int :=
  let i := bytes.indexOf 0x1F
  if i ≠ 0 then -(i : Int)
  else if bytes.length < 4 then 0
  else
    let payloadLength := (bytes.getD 2 0) * 256 + bytes.getD 3 0
    if bytes.length < 4 + payloadLength then 0
    else (4 : Int) + payloadLength

/-- `PDU::PDU(const Bytes&)` (Protocol.cpp lines 170-177): type from
`frame[1]`, payload from `frame[4..]`. -/
def PDU.ofFrame (frame : Bytes) : PDU :=
  { type := frame.getD 1 0, payload := frame.drop 4 }

/-- `PDU::separationTimeCodeFromMicroseconds` (Protocol.cpp lines 421-438). -/
def PDU.separationTimeCodeFromMicroseconds (microseconds : Nat) : Nat :=
  if microseconds < 100 then 0
  else if microseconds < 200 then 0x07
  else if microseconds < 300 then 0x08
  else if microseconds < 400 then 0x09
  else if microseconds < 500 then 0x0A
  else if microseconds < 600 then 0x0B
  else if microseconds < 700 then 0x0C
  else if microseconds < 800 then 0x0D
  else if microseconds < 900 then 0x0E
  else if microseconds < 1000 then 0x0F
  else if microseconds < 2000 then 0x01
  else if microseconds < 3000 then 0x02
  else if microseconds < 4000 then 0x03
  else if microseconds < 5000 then 0x04
  else if microseconds < 6000 then 0x05
  else 0x06

/-- `PDU::microsecondsFromSeparationTimeCode` (Protocol.cpp lines 440-460). -/
def PDU.microsecondsFromSeparationTimeCode (code : Nat) : Nat :=
  match code with
  | 0x00 => 0
  | 0x01 => 1000
  | 0x02 => 2000
  | 0x03 => 3000
  | 0x04 => 4000
  | 0x05 => 5000
  | 0x06 => 6000
  | 0x07 => 100
  | 0x08 => 200
  | 0x09 => 300
  | 0x0A => 400
  | 0x0B => 500
  | 0x0C => 600
  | 0x0D => 700
  | 0x0E => 800
  | 0x0F => 900
  | _ => 6000

/-! ## ecuconnect-j2534 codec (canyonero_protocol.cpp) -/

/-- `PDU::closeChannel` in canyonero_protocol.cpp lines 148-150:
`PDU(PDUType::CloseChannel, {handle})`. -/
def Ecu.closeChannel (handle : Nat) : PDU :=
  { type := PDUType.closeChannel, payload := [handle % 256] }

/-- `PDU::serialize` (canyonero_protocol.cpp lines 73-83): ATT ‖ type ‖
`static_cast<uint16_t>(payload.size())` big-endian ‖ payload. -/
def Ecu.serialize (p : PDU) : Bytes :=
  0x1F :: p.type % 256 :: ((p.payload.length % 65536) >>> 8) % 256 ::
    (p.payload.length % 65536) % 256 :: p.payload

/-- `PDU::parse` (canyonero_protocol.cpp lines 85-107). Returns the number
of consumed bytes (0: need more, -1: garbage) and the parsed PDU if any. -/
def Ecu.parse (buffer : Bytes) : Int × Option PDU :=
  if buffer.length < 4 then (0, none)
  else if buffer.getD 0 0 ≠ 0x1F then (-1, none)
  else
    let length := (buffer.getD 2 0) * 256 + buffer.getD 3 0
    if buffer.length < 4 + length then (0, none)
    else ((4 : Int) + length, some { type := buffer.getD 1 0, payload := (buffer.drop 4).take length })

/-! ## Separation-time table (spec §4.B)

`stTable` is written from the spec's words — the sixteen-entry table
{0, 100, ..., 900, 1000, 2000, ..., 6000} — to compare the code's encoder
against the spec's rounding rule. -/

def stTable : List Nat :=
  [0, 100, 200, 300, 400, 500, 600, 700, 800, 900, 1000, 2000, 3000, 4000, 5000, 6000]

/-! ## Claim theorems: PDU codec -/

/-- C1: the claim states that `closeChannel(h)` produces a PDU with type tag
`CloseChannel` (0x31) and payload `[h]`. The libCANyonero implementation
(Protocol.cpp lines 233-236) instead tags the PDU with `openChannel` (0x30),
contradicting its own header documentation and the parallel ecuconnect-j2534
codec, which does use the `CloseChannel` tag. This theorem evaluates both
implementations at handle 5. -/
theorem closeChannel_tag_evaluation :
    (PDU.closeChannel 5).type = PDUType.openChannel ∧
    PDUType.openChannel ≠ PDUType.closeChannel ∧
    (PDU.closeChannel 5).payload = [5] ∧
    (Ecu.closeChannel 5).type = PDUType.closeChannel ∧
    (Ecu.closeChannel 5).payload = [5] := by
  refine ⟨rfl, by decide, rfl, rfl, rfl⟩

/-- C2 (counterexample): for interval byte 132, `milliseconds()` returns
(132 × 500) mod 2^16 = 464, not 132 × 500 = 66000, because the `uint16_t`
return type truncates the product. -/
theorem milliseconds_counterexample :
    PDU.milliseconds
      (PDU.startPeriodicMessage 132
        { request := 0, requestExtension := 0, replyPattern := 0,
          replyMask := 0, replyExtension := 0 } []) = 464 ∧
    (464 : Nat) ≠ 132 * 500 := by
  refine ⟨rfl, by decide⟩

/-- C2 (amended): for every startPeriodicMessage PDU whose first payload byte
is the interval byte b (b over all 8-bit values), `milliseconds()` returns
(b × 500) mod 2^16; this equals b × 500 exactly whenever b ≤ 131. -/
theorem milliseconds_mod_correct (b : Nat) (hb : b < 256) (arb : Arbitration) (data : Bytes) :
    PDU.milliseconds (PDU.startPeriodicMessage b arb data) = (b * 500) % 65536 := by
  simp [PDU.milliseconds, PDU.startPeriodicMessage, Nat.mod_eq_of_lt hb]

/-- C2 witness: the amended theorem at interval byte 7. -/
theorem milliseconds_mod_correct_witness :
    (7 : Nat) < 256 ∧
    PDU.milliseconds
      (PDU.startPeriodicMessage 7
        { request := 0, requestExtension := 0, replyPattern := 0,
          replyMask := 0, replyExtension := 0 } []) = (7 * 500) % 65536 :=
  ⟨by decide,
   milliseconds_mod_correct 7 (by decide)
     { request := 0, requestExtension := 0, replyPattern := 0,
       replyMask := 0, replyExtension := 0 } []⟩

/-- C3: for every type tag t < 256 and payload p with |p| ≤ 65535, parsing
the serialization of PDU(t, p) returns the same PDU and consumes exactly
4 + |p| bytes — in the ecuconnect codec (`parse`/`serialize`) and in the
libCANyonero codec (`containsPDU`/`frame`/`PDU(const Bytes&)`). -/
theorem parse_serialize_roundtrip (t : Nat) (p : Bytes)
    (ht : t < 256) (hp : p.length ≤ 65535) :
    Ecu.parse (Ecu.serialize { type := t, payload := p }) =
      ((4 : Int) + p.length, some { type := t, payload := p }) ∧
    PDU.containsPDU (PDU.frame { type := t, payload := p }) = (4 : Int) + p.length ∧
    PDU.ofFrame (PDU.frame { type := t, payload := p }) = { type := t, payload := p } := by
  have hmod : p.length % 65536 = p.length := Nat.mod_eq_of_lt (by omega)
  have hshift : p.length >>> 8 = p.length / 256 := Nat.shiftRight_eq_div_pow p.length 8
  have hlen : ((p.length >>> 8) % 256) * 256 + p.length % 256 = p.length := by
    rw [hshift]; omega
  refine ⟨?_, ?_, ?_⟩
  · show Ecu.parse (0x1F :: t % 256 :: ((p.length % 65536) >>> 8) % 256 ::
      (p.length % 65536) % 256 :: p) = _
    unfold Ecu.parse
    simp only [List.length_cons, List.getD_cons_zero, List.getD_cons_succ, hmod]
    rw [if_neg (by omega), if_neg (by omega), hlen, if_neg (by omega)]
    simp [Nat.mod_eq_of_lt ht, List.take_length]
  · show PDU.containsPDU (0x1F :: t % 256 :: (p.length >>> 8) % 256 ::
      p.length % 256 :: p) = _
    unfold PDU.containsPDU
    simp only [List.indexOf_cons_self, List.length_cons, List.getD_cons_zero,
      List.getD_cons_succ]
    rw [if_neg (by omega), if_neg (by omega), hlen, if_neg (by omega)]
  · show PDU.ofFrame (0x1F :: t % 256 :: (p.length >>> 8) % 256 ::
      p.length % 256 :: p) = _
    unfold PDU.ofFrame
    simp [List.getD_cons_zero, List.getD_cons_succ, Nat.mod_eq_of_lt ht]

/-- C3 witness: the round-trip theorem at tag 0x80 and payload [0x42]. -/
theorem parse_serialize_roundtrip_witness :
    (0x80 : Nat) < 256 ∧ ([0x42] : Bytes).length ≤ 65535 ∧
    Ecu.parse (Ecu.serialize { type := 0x80, payload := [0x42] }) =
      ((4 : Int) + ([0x42] : Bytes).length, some { type := 0x80, payload := [0x42] }) :=
  ⟨by decide, by decide, (parse_serialize_roundtrip 0x80 [0x42] (by decide) (by decide)).1⟩

/-- C7: converting microseconds to a separation-time code and back yields the
largest entry of the sixteen-entry table that is ≤ the input (the encoder
rounds down), and the code-to-microseconds conversion is a left inverse of
the microseconds-to-code conversion on all sixteen table entries. -/
theorem septime_code_floor_roundtrip :
    (∀ x : Nat, x < 65536 →
      PDU.microsecondsFromSeparationTimeCode (PDU.separationTimeCodeFromMicroseconds x) ∈ stTable ∧
      PDU.microsecondsFromSeparationTimeCode (PDU.separationTimeCodeFromMicroseconds x) ≤ x ∧
      ∀ e ∈ stTable, e ≤ x →
        e ≤ PDU.microsecondsFromSeparationTimeCode (PDU.separationTimeCodeFromMicroseconds x)) ∧
    (∀ e ∈ stTable, PDU.microsecondsFromSeparationTimeCode
      (PDU.separationTimeCodeFromMicroseconds e) = e) := by
  constructor
  · intro x _
    unfold PDU.separationTimeCodeFromMicroseconds
    by_cases h1 : x < 100
    · rw [if_pos h1, show PDU.microsecondsFromSeparationTimeCode 0 = 0 from rfl]
      refine ⟨by decide, by omega, ?_⟩
      simp only [stTable, List.mem_cons, List.not_mem_nil, or_false, forall_eq_or_imp,
        forall_eq]
      omega
    rw [if_neg h1]
    by_cases h2 : x < 200
    · rw [if_pos h2, show PDU.microsecondsFromSeparationTimeCode 7 = 100 from rfl]
      refine ⟨by decide, by omega, ?_⟩
      simp only [stTable, List.mem_cons, List.not_mem_nil, or_false, forall_eq_or_imp,
        forall_eq]
      omega
    rw [if_neg h2]
    by_cases h3 : x < 300
    · rw [if_pos h3, show PDU.microsecondsFromSeparationTimeCode 8 = 200 from rfl]
      refine ⟨by decide, by omega, ?_⟩
      simp only [stTable, List.mem_cons, List.not_mem_nil, or_false, forall_eq_or_imp,
        forall_eq]
      omega
    rw [if_neg h3]
    by_cases h4 : x < 400
    · rw [if_pos h4, show PDU.microsecondsFromSeparationTimeCode 9 = 300 from rfl]
      refine ⟨by decide, by omega, ?_⟩
      simp only [stTable, List.mem_cons, List.not_mem_nil, or_false, forall_eq_or_imp,
        forall_eq]
      omega
    rw [if_neg h4]
    by_cases h5 : x < 500
    · rw [if_pos h5, show PDU.microsecondsFromSeparationTimeCode 10 = 400 from rfl]
      refine ⟨by decide, by omega, ?_⟩
      simp only [stTable, List.mem_cons, List.not_mem_nil, or_false, forall_eq_or_imp,
        forall_eq]
      omega
    rw [if_neg h5]
    by_cases h6 : x < 600
    · rw [if_pos h6, show PDU.microsecondsFromSeparationTimeCode 11 = 500 from rfl]
      refine ⟨by decide, by omega, ?_⟩
      simp only [stTable, List.mem_cons, List.not_mem_nil, or_false, forall_eq_or_imp,
        forall_eq]
      omega
    rw [if_neg h6]
    by_cases h7 : x < 700
    · rw [if_pos h7, show PDU.microsecondsFromSeparationTimeCode 12 = 600 from rfl]
      refine ⟨by decide, by omega, ?_⟩
      simp only [stTable, List.mem_cons, List.not_mem_nil, or_false, forall_eq_or_imp,
        forall_eq]
      omega
    rw [if_neg h7]
    by_cases h8 : x < 800
    · rw [if_pos h8, show PDU.microsecondsFromSeparationTimeCode 13 = 700 from rfl]
      refine ⟨by decide, by omega, ?_⟩
      simp only [stTable, List.mem_cons, List.not_mem_nil, or_false, forall_eq_or_imp,
        forall_eq]
      omega
    rw [if_neg h8]
    by_cases h9 : x < 900
    · rw [if_pos h9, show PDU.microsecondsFromSeparationTimeCode 14 = 800 from rfl]
      refine ⟨by decide, by omega, ?_⟩
      simp only [stTable, List.mem_cons, List.not_mem_nil, or_false, forall_eq_or_imp,
        forall_eq]
      omega
    rw [if_neg h9]
    by_cases h10 : x < 1000
    · rw [if_pos h10, show PDU.microsecondsFromSeparationTimeCode 15 = 900 from rfl]
      refine ⟨by decide, by omega, ?_⟩
      simp only [stTable, List.mem_cons, List.not_mem_nil, or_false, forall_eq_or_imp,
        forall_eq]
      omega
    rw [if_neg h10]
    by_cases h11 : x < 2000
    · rw [if_pos h11, show PDU.microsecondsFromSeparationTimeCode 1 = 1000 from rfl]
      refine ⟨by decide, by omega, ?_⟩
      simp only [stTable, List.mem_cons, List.not_mem_nil, or_false, forall_eq_or_imp,
        forall_eq]
      omega
    rw [if_neg h11]
    by_cases h12 : x < 3000
    · rw [if_pos h12, show PDU.microsecondsFromSeparationTimeCode 2 = 2000 from rfl]
      refine ⟨by decide, by omega, ?_⟩
      simp only [stTable, List.mem_cons, List.not_mem_nil, or_false, forall_eq_or_imp,
        forall_eq]
      omega
    rw [if_neg h12]
    by_cases h13 : x < 4000
    · rw [if_pos h13, show PDU.microsecondsFromSeparationTimeCode 3 = 3000 from rfl]
      refine ⟨by decide, by omega, ?_⟩
      simp only [stTable, List.mem_cons, List.not_mem_nil, or_false, forall_eq_or_imp,
        forall_eq]
      omega
    rw [if_neg h13]
    by_cases h14 : x < 5000
    · rw [if_pos h14, show PDU.microsecondsFromSeparationTimeCode 4 = 4000 from rfl]
      refine ⟨by decide, by omega, ?_⟩
      simp only [stTable, List.mem_cons, List.not_mem_nil, or_false, forall_eq_or_imp,
        forall_eq]
      omega
    rw [if_neg h14]
    by_cases h15 : x < 6000
    · rw [if_pos h15, show PDU.microsecondsFromSeparationTimeCode 5 = 5000 from rfl]
      refine ⟨by decide, by omega, ?_⟩
      simp only [stTable, List.mem_cons, List.not_mem_nil, or_false, forall_eq_or_imp,
        forall_eq]
      omega
    rw [if_neg h15, show PDU.microsecondsFromSeparationTimeCode 6 = 6000 from rfl]
    refine ⟨by decide, by omega, ?_⟩
    simp only [stTable, List.mem_cons, List.not_mem_nil, or_false, forall_eq_or_imp,
      forall_eq]
    omega
  · intro e he
    simp only [stTable, List.mem_cons, List.not_mem_nil, or_false] at he
    rcases he with rfl | rfl | rfl | rfl | rfl | rfl | rfl | rfl | rfl | rfl | rfl |
      rfl | rfl | rfl | rfl | rfl <;> rfl

/-- C7 witness: the floor property at input 1234 µs. -/
theorem septime_code_floor_roundtrip_witness :
    (1234 : Nat) < 65536 ∧
    PDU.microsecondsFromSeparationTimeCode (PDU.separationTimeCodeFromMicroseconds 1234) ≤ 1234 :=
  ⟨by decide, (septime_code_floor_roundtrip.1 1234 (by decide)).2.1⟩

/-! ## K-Line transceiver (KLine.hpp) -/

/-- `KLine::ProtocolMode`. -/
inductive KLineMode
  | kwp
  | iso9141
deriving Repr, DecidableEq

/-- `KLine::checksum` (KLine.hpp lines 277-281): additive 8-bit sum. -/
def klineChecksum (bytes : Bytes) : Nat :=
  bytes.foldl (fun s b => (s + b) % 256) 0

/-- `KLine::Frame::checksumValid` (KLine.hpp lines 34-41): frames shorter than
4 bytes are invalid; otherwise the 8-bit sum of all bytes except the last must
equal the last byte. -/
def kframeChecksumValid (bytes : Bytes) : Bool :=
  if bytes.length < 4 then false
  else klineChecksum bytes.dropLast == bytes.getLastD 0

/-- `KLine::Frame::payloadLength` (KLine.hpp lines 43-53). KWP: low nibble of
the format byte; ISO 9141: frame length minus three header bytes minus the
checksum byte. -/
def kframePayloadLength (mode : KLineMode) (bytes : Bytes) : Nat :=
  match mode with
  | KLineMode.kwp => (bytes.headD 0) &&& 0x0F
  | KLineMode.iso9141 =>
    if bytes.length ≤ 3 then 0 else (bytes.length - 3) - 1

/-- `KLine::Frame::expectedSize` (KLine.hpp lines 55-61). -/
def kframeExpectedSize (mode : KLineMode) (bytes : Bytes) : Nat :=
  match mode with
  | KLineMode.kwp => 3 + kframePayloadLength KLineMode.kwp bytes + 1
  | KLineMode.iso9141 => 3 + 1

/-- `KLine::Frame::sizeValid` (KLine.hpp lines 63-68). -/
def kframeSizeValid (mode : KLineMode) (bytes : Bytes) : Bool :=
  match mode with
  | KLineMode.kwp => bytes.length == kframeExpectedSize KLineMode.kwp bytes
  | KLineMode.iso9141 => kframeExpectedSize KLineMode.iso9141 bytes ≤ bytes.length

/-- `KLine::Frame::target` (KLine.hpp lines 70-75). -/
def kframeTarget (mode : KLineMode) (bytes : Bytes) : Nat :=
  match mode with
  | KLineMode.kwp => if 2 ≤ bytes.length then bytes.getD 1 0 else 0
  | KLineMode.iso9141 => bytes.headD 0

/-- `KLine::Frame::source` (KLine.hpp lines 77-82). -/
def kframeSource (mode : KLineMode) (bytes : Bytes) : Nat :=
  match mode with
  | KLineMode.kwp => if 3 ≤ bytes.length then bytes.getD 2 0 else 0
  | KLineMode.iso9141 => if 2 ≤ bytes.length then bytes.getD 1 0 else 0

/-- `KLine::Transceiver::State`. -/
inductive KLineRxState
  | idle
  | receiving
deriving Repr, DecidableEq

/-- `KLine::Transceiver::Action::Type`. -/
inductive KActionType
  | process
  | waitForMore
  | protocolViolation
deriving Repr, DecidableEq

/-- `KLine::Transceiver::Action`. -/
structure KAction where
  type : KActionType
  error : String := ""
  data : Bytes := []
deriving Repr, DecidableEq

/-- State of `KLine::Transceiver` (KLine.hpp lines 239-252): construction
configuration plus the mutable merge state. -/
structure KLineState where
  expectedTarget : Nat
  expectedSource : Nat
  expectedLength : Nat
  mode : KLineMode
  state : KLineRxState
  baseService : Nat
  basePid : Nat
  haveBase : Bool
  firstFrameHadPotentialSeq : Bool
  sequenceMode : Bool
  expectedSeq : Nat
  buffer : Bytes
deriving Repr, DecidableEq

/-- A freshly constructed `KLine::Transceiver` with the given configuration. -/
def klineInit (expectedTarget expectedSource expectedLength : Nat) (mode : KLineMode) :
    KLineState :=
  { expectedTarget := expectedTarget, expectedSource := expectedSource,
    expectedLength := expectedLength, mode := mode, state := KLineRxState.idle,
    baseService := 0, basePid := 0, haveBase := false,
    firstFrameHadPotentialSeq := false, sequenceMode := false, expectedSeq := 0,
    buffer := [] }

/-- `KLine::Transceiver::reset` (KLine.hpp lines 126-135): clears the merge
state; the construction configuration is untouched. -/
def klineReset (t : KLineState) : KLineState :=
  { t with
    state := KLineRxState.idle
    baseService := 0
    basePid := 0
    haveBase := false
    firstFrameHadPotentialSeq := false
    sequenceMode := false
    expectedSeq := 0
    buffer := [] }

/-- `KLine::Transceiver::violation` (KLine.hpp lines 270-273): reset and
return a `protocolViolation` action. -/
def klineViolation (t : KLineState) (msg : String) : KLineState × KAction :=
  (klineReset t, { type := KActionType.protocolViolation, error := msg })

/-- `KLine::Transceiver::finalizeInternal` (KLine.hpp lines 264-268). -/
def klineFinalizeInternal (t : KLineState) : KLineState × KAction :=
  (klineReset t, { type := KActionType.process, data := t.buffer })

/-- Common tail of `KLine::Transceiver::feed`: finalize once the preset
expected length is reached, else wait for more. -/
def klineFinalizeCheck (t : KLineState) : KLineState × KAction :=
  if 0 < t.expectedLength ∧ t.expectedLength ≤ t.buffer.length then
    klineFinalizeInternal t
  else (t, { type := KActionType.waitForMore })

/-- `KLine::Transceiver::feed` (KLine.hpp lines 139-230). The frame's payload
view (`Frame::payload()` limited to `payloadLength` bytes) is
`(frameBytes.drop 3).take payloadLen`; `appendPayload(p, len, start)` appends
`payload.drop start` of that view. -/
def klineFeed (t : KLineState) (frameBytes : Bytes) : KLineState × KAction :=
  if frameBytes.isEmpty then klineViolation t "Incoming frame is empty."
  else if ¬ kframeSizeValid t.mode frameBytes then
    klineViolation t (if t.mode = KLineMode.kwp then
      "Frame size does not match length in format byte."
      else "Frame size invalid for ISO 9141 mode.")
  else if ¬ kframeChecksumValid frameBytes then klineViolation t "Checksum invalid."
  else if t.expectedTarget ≠ 0 ∧ kframeTarget t.mode frameBytes ≠ t.expectedTarget then
    klineViolation t "Unexpected target address."
  else if t.expectedSource ≠ 0 ∧ kframeSource t.mode frameBytes ≠ t.expectedSource then
    klineViolation t "Unexpected source address."
  else
    let payloadLen := kframePayloadLength t.mode frameBytes
    if frameBytes.length ≤ 3 ∧ 0 < payloadLen then klineViolation t "Missing payload."
    else
      let payload := (frameBytes.drop 3).take payloadLen
      if t.mode = KLineMode.iso9141 then
        klineFinalizeCheck { t with
          buffer := t.buffer ++ payload
          state := KLineRxState.receiving }
      else if ¬ t.haveBase ∧ 2 ≤ payloadLen then
        klineFinalizeCheck { t with
          baseService := payload.getD 0 0
          basePid := payload.getD 1 0
          haveBase := true
          firstFrameHadPotentialSeq :=
            decide (3 ≤ payloadLen) && (payload.getD 2 0 == 1)
          buffer := t.buffer ++ [payload.getD 0 0, payload.getD 1 0] ++ payload.drop 2
          state := KLineRxState.receiving }
      else if t.haveBase then
        if 2 ≤ payloadLen ∧ (payload.getD 0 0 ≠ t.baseService ∨
            payload.getD 1 0 ≠ t.basePid) then
          klineViolation t "Base service/PID mismatch."
        else if ¬ t.sequenceMode ∧ t.firstFrameHadPotentialSeq ∧ 3 ≤ payloadLen ∧
            payload.getD 2 0 = 2 then
          let buf1 := if 2 < t.buffer.length ∧ t.buffer.getD 2 0 = 1 then
            t.buffer.eraseIdx 2 else t.buffer
          klineFinalizeCheck { t with
            buffer := buf1 ++ payload.drop 3
            sequenceMode := true
            expectedSeq := 3
            state := KLineRxState.receiving }
        else if t.sequenceMode then
          if 3 ≤ payloadLen then
            if payload.getD 2 0 ≠ t.expectedSeq then
              klineViolation t "Sequence number mismatch."
            else
              klineFinalizeCheck { t with
                expectedSeq := (payload.getD 2 0 + 1) % 256
                buffer := t.buffer ++ payload.drop 3
                state := KLineRxState.receiving }
          else
            klineFinalizeCheck { t with
              buffer := t.buffer ++ payload.drop 2
              state := KLineRxState.receiving }
        else
          klineFinalizeCheck { t with
            buffer := t.buffer ++ payload.drop 2
            state := KLineRxState.receiving }
      else
        klineFinalizeCheck { t with
          buffer := t.buffer ++ payload
          state := KLineRxState.receiving }

/-- `KLine::Transceiver::finalize` (KLine.hpp lines 232-237). -/
def klineFinalize (t : KLineState) : KLineState × KAction :=
  if t.buffer.isEmpty then (t, { type := KActionType.waitForMore })
  else klineFinalizeInternal t

/-- `KLine::makeKwpFrame` (KLine.hpp lines 284-293): format byte (high bits
from `fmtHigh`, source parameter name formatPrefix, low nibble = payload
length) ‖ target ‖ source ‖ payload ‖ checksum. -/
def makeKwpFrame (target source : Nat) (payload : Bytes) (fmtHigh : Nat) : Bytes :=
  let fmt := fmtHigh ||| (payload.length &&& 0x0F)
  let fr := fmt :: target :: source :: payload
  fr ++ [klineChecksum fr]

/-! ## Claim theorems: K-Line -/

/-- C6: feeding two checksum-valid KWP frames with payloads
[svc, pid, 0x01, A, B, C] and [svc, pid, 0x02, D, E] and finalizing yields
the merged payload [svc, pid, A, B, C, D, E] (retroactive sequencing strips
the sequence bytes), whereas feeding only [svc, pid, 0x01, A, B] and
finalizing yields [svc, pid, 0x01, A, B] with the 0x01 byte retained. -/
theorem kline_kwp_retroactive_merge (tgt src svc pid a b c d e : Nat) :
    (klineFinalize (klineFeed (klineFeed (klineInit 0 0 0 KLineMode.kwp)
        (makeKwpFrame tgt src [svc, pid, 1, a, b, c] 0x80)).1
        (makeKwpFrame tgt src [svc, pid, 2, d, e] 0x80)).1).2 =
      { type := KActionType.process, data := [svc, pid, a, b, c, d, e] } ∧
    (klineFinalize (klineFeed (klineInit 0 0 0 KLineMode.kwp)
        (makeKwpFrame tgt src [svc, pid, 1, a, b] 0x80)).1).2 =
      { type := KActionType.process, data := [svc, pid, 1, a, b] } := by
  have hA : ((134 : Nat) &&& 15) = 6 := by decide
  have hB : ((133 : Nat) &&& 15) = 5 := by decide
  have hC : ((128 ||| 6 &&& 15) : Nat) = 134 := by decide
  have hD : ((128 ||| 5 &&& 15) : Nat) = 133 := by decide
  constructor <;>
    simp [klineInit, klineFeed, klineFinalize, klineFinalizeCheck,
      klineFinalizeInternal, klineReset, klineViolation, makeKwpFrame,
      kframeSizeValid, kframeExpectedSize, kframePayloadLength,
      kframeChecksumValid, kframeTarget, kframeSource, klineChecksum,
      List.eraseIdx, List.getD, hA, hB, hC, hD]

/-- C10: every input frame shorter than 4 bytes (including the empty frame),
in both KWP and ISO 9141-2 modes and from any transceiver state, makes `feed`
return a ProtocolViolation action and reset the transceiver to its initial
merge state (buffer cleared, state idle). -/
theorem kline_short_frame_violation (t : KLineState) (bytes : Bytes)
    (h : bytes.length < 4) :
    (klineFeed t bytes).2.type = KActionType.protocolViolation ∧
    (klineFeed t bytes).1 = klineReset t := by
  have hsize : kframeSizeValid t.mode bytes = false := by
    cases t.mode with
    | kwp =>
      simp only [kframeSizeValid, kframeExpectedSize, beq_eq_false_iff_ne, ne_eq]
      omega
    | iso9141 =>
      simp only [kframeSizeValid, kframeExpectedSize, decide_eq_false_iff_not]
      omega
  cases hb : bytes with
  | nil => simp [klineFeed, klineViolation]
  | cons x xs =>
    rw [hb] at hsize
    simp [klineFeed, klineViolation, hsize]

/-- C10 witness: the frame [1, 2] in a fresh KWP transceiver. -/
theorem kline_short_frame_violation_witness :
    ([1, 2] : Bytes).length < 4 ∧
    (klineFeed (klineInit 0 0 0 KLineMode.kwp) [1, 2]).2.type =
      KActionType.protocolViolation ∧
    (klineFeed (klineInit 0 0 0 KLineMode.kwp) [1, 2]).1 =
      klineReset (klineInit 0 0 0 KLineMode.kwp) :=
  ⟨by decide,
   (kline_short_frame_violation (klineInit 0 0 0 KLineMode.kwp) [1, 2] (by decide)).1,
   (kline_short_frame_violation (klineInit 0 0 0 KLineMode.kwp) [1, 2] (by decide)).2⟩

/-! ## Device manager readMsgs (ecuconnect.cpp) -/

/-- J2534 return code `STATUS_NOERROR` (j2534.h). -/
def statusNoError : Nat := 0x00

/-- J2534 return code `ERR_TIMEOUT` (j2534.h). -/
def errTimeout : Nat := 0x09

/-- J2534 return code `ERR_BUFFER_EMPTY` (j2534.h). -/
def errBufferEmpty : Nat := 0x10

/-- Result of `DeviceManager::readMsgs`: the returned code, the messages
copied to the caller and the messages left in the channel RX queue. -/
structure ReadMsgsResult where
  status : Nat
  delivered : List Bytes
  remaining : List Bytes
deriving Repr, DecidableEq

/-- `DeviceManager::readMsgs` (ecuconnect.cpp lines 400-441), modelled for a
valid channel and non-null `msgs`/`numMsgs` pointers. `queue` is the channel
RX queue at the time of the copy loop (after the optional condition-variable
wait), `requested` the caller's `*numMsgs`, `timeout` the timeout argument.
The loop copies messages while `*numMsgs < requested` and the queue is
nonempty; if none were copied the function returns `ERR_TIMEOUT` when
`timeout > 0`, else `ERR_BUFFER_EMPTY`, otherwise `STATUS_NOERROR`. -/
def readMsgs (queue : List Bytes) (requested timeout : Nat) : ReadMsgsResult :=
  let delivered := queue.take requested
  { status :=
      if delivered.length = 0 then
        if 0 < timeout then errTimeout else errBufferEmpty
      else statusNoError
    delivered := delivered
    remaining := queue.drop requested }

/-! ## Claim theorem: readMsgs -/

/-- C8: for a valid channel with non-null message and count pointers,
`readMsgs` returns ERR_TIMEOUT when no message was delivered and timeout > 0,
ERR_BUFFER_EMPTY when no message was delivered and timeout = 0, and otherwise
STATUS_NOERROR after copying up to the requested count from the queue. -/
theorem readMsgs_status (queue : List Bytes) (requested timeout : Nat) :
    ((readMsgs queue requested timeout).delivered = [] → 0 < timeout →
      (readMsgs queue requested timeout).status = errTimeout) ∧
    ((readMsgs queue requested timeout).delivered = [] → timeout = 0 →
      (readMsgs queue requested timeout).status = errBufferEmpty) ∧
    ((readMsgs queue requested timeout).delivered ≠ [] →
      (readMsgs queue requested timeout).status = statusNoError ∧
      (readMsgs queue requested timeout).delivered = queue.take requested ∧
      (readMsgs queue requested timeout).delivered.length =
        min requested queue.length) := by
  refine ⟨?_, ?_, ?_⟩
  · intro hd ht
    simp only [readMsgs] at hd ⊢
    rw [if_pos (by simp [hd]), if_pos ht]
  · intro hd ht
    simp only [readMsgs] at hd ⊢
    rw [if_pos (by simp [hd]), if_neg (by omega)]
  · intro hd
    have hd' : ¬ (queue.take requested).length = 0 := fun h0 =>
      hd (List.length_eq_zero.mp h0)
    refine ⟨?_, rfl, ?_⟩
    · simp only [readMsgs]
      rw [if_neg hd']
    · exact List.length_take requested queue

/-- C8 witness: an empty queue with timeout 5 yields ERR_TIMEOUT. -/
theorem readMsgs_status_witness :
    (readMsgs [] 1 5).delivered = [] ∧ (0 : Nat) < 5 ∧
    (readMsgs [] 1 5).status = errTimeout :=
  ⟨rfl, by decide, (readMsgs_status [] 1 5).1 rfl (by decide)⟩

/-! ## ISO-TP classic transceiver (ISOTP.hpp) -/

/-- `ISOTP::maximumTransferSize` (4095 bytes). -/
def isotpMaximumTransferSize : Nat := 0xFFF

/-- `ISOTP::maximumUnconfirmedBlocks`. -/
def isotpMaximumUnconfirmedBlocks : Nat := 1000

/-- `ISOTP::padding`. -/
def isotpPadding : Nat := 0xAA

/-- `Frame::Type`. -/
inductive FrameType
  | single
  | first
  | consecutive
  | flowControl
  | invalid
deriving Repr, DecidableEq

/-- `Frame::FlowStatus`. -/
inductive FlowStatus
  | clearToSend
  | wait
  | overflow
  | invalid
deriving Repr, DecidableEq

/-- `std::vector::resize(width, pad)`: pad up to `width`, or truncate when the
vector is longer. -/
def resizeTo (l : Bytes) (width pad : Nat) : Bytes :=
  l.take width ++ List.replicate (width - l.length) pad

/-- `Frame::type()` (ISOTP.hpp lines 90-98): high nibble of byte 0. -/
def frameTypeOf (bytes : Bytes) : FrameType :=
  match (bytes.headD 0) &&& 0xF0 with
  | 0x00 => FrameType.single
  | 0x10 => FrameType.first
  | 0x20 => FrameType.consecutive
  | 0x30 => FrameType.flowControl
  | _ => FrameType.invalid

/-- `Frame::flowStatus()` (ISOTP.hpp lines 101-109): low nibble of byte 0. -/
def flowStatusOf (bytes : Bytes) : FlowStatus :=
  match (bytes.headD 0) &&& 0x0F with
  | 0x00 => FlowStatus.clearToSend
  | 0x01 => FlowStatus.wait
  | 0x02 => FlowStatus.overflow
  | _ => FlowStatus.invalid

/-- `Frame::singleLength()`: low nibble of byte 0. -/
def frameSingleLength (bytes : Bytes) : Nat :=
  (bytes.headD 0) &&& 0x0F

/-- `Frame::firstLength()`: 12-bit length from low nibble of byte 0 and
byte 1 (`(bytes[0] & 0x0F) << 8 | bytes[1]`). -/
def frameFirstLength (bytes : Bytes) : Nat :=
  ((bytes.headD 0) &&& 0x0F) * 256 + bytes.getD 1 0

/-- `Frame::consecutiveSequenceNumber()`: low nibble of byte 0. -/
def frameConsecutiveSeq (bytes : Bytes) : Nat :=
  (bytes.headD 0) &&& 0x0F

/-- `Frame::blockSize()`: byte 1 of a flow-control frame. -/
def frameBlockSize (bytes : Bytes) : Nat :=
  bytes.getD 1 0

/-- `Frame::separationTimeToMicroseconds` (ISOTP.hpp lines 141-151). The
`uint16_t` return type truncates each result modulo 2^16; this matters for
the `stMin * 1000` branch, which wraps for stMin bytes 0x42-0x7F (e.g.
0x50 yields 14464, not 80000). -/
def separationTimeToMicroseconds (stMin : Nat) : Nat :=
  if stMin < 0x80 then (stMin * 1000) % 65536
  else if stMin < 0xF1 then 0
  else if stMin < 0xFA then (100 * (stMin - 0xF0)) % 65536
  else 0

/-- `Frame::separationTime()`: byte 2 of a flow-control frame, converted to
microseconds. -/
def frameSeparationTime (bytes : Bytes) : Nat :=
  separationTimeToMicroseconds (bytes.getD 2 0)

/-- `Frame::single` (ISOTP.hpp lines 59-66). -/
def frameSingle (bytes : Bytes) (width : Nat) : Bytes :=
  resizeTo ((0x00 ||| bytes.length) :: bytes) width isotpPadding

/-- `Frame::first` (ISOTP.hpp lines 69-75): PCI pair then the first
`width - 2` payload bytes; no padding. -/
def frameFirst (pduLength : Nat) (bytes : Bytes) (width : Nat) : Bytes :=
  (0x10 ||| (pduLength >>> 8)) :: (pduLength &&& 0xFF) :: bytes.take (width - 2)

/-- `Frame::consecutive` (ISOTP.hpp lines 78-87). -/
def frameConsecutive (sequenceNumber : Nat) (bytes : Bytes) (count width : Nat) : Bytes :=
  resizeTo ((0x20 ||| sequenceNumber) :: bytes.take count) width isotpPadding

/-- `Frame::flowControl` (ISOTP.hpp lines 51-56); status is the numeric
`FlowStatus` value. -/
def frameFlowControl (status blockSize separationTime width : Nat) : Bytes :=
  resizeTo [0x30 ||| status, blockSize, separationTime] width isotpPadding

/-- `Transceiver::Behavior`. -/
inductive TBehavior
  | defensive
  | strict
deriving Repr, DecidableEq

/-- `Transceiver::Mode`. -/
inductive TMode
  | standard
  | extended
deriving Repr, DecidableEq

/-- `Transceiver::State`. -/
inductive MachineState
  | idle
  | sending
  | receiving
deriving Repr, DecidableEq

/-- `Transceiver::Action::Type`. -/
inductive ActionType
  | process
  | writeFrames
  | waitForMore
  | protocolViolation
deriving Repr, DecidableEq

/-- `Transceiver::Action`. -/
structure TAction where
  type : ActionType
  error : String := ""
  data : Bytes := []
  frames : List Bytes := []
  separationTime : Nat := 0
deriving Repr, DecidableEq

/-- A protocol-violation action with the given message. -/
def pvAction (msg : String) : TAction :=
  { type := ActionType.protocolViolation, error := msg }

/-- State of the classic `Transceiver` (ISOTP.hpp lines 340-354):
construction configuration plus the mutable machine state. -/
structure TransceiverState where
  behavior : TBehavior
  width : Nat
  blockSize : Nat
  rxSeparationTime : Nat
  txSeparationTime : Nat
  state : MachineState
  sendingPayload : Bytes
  sendingSequenceNumber : Nat
  receivingPayload : Bytes
  receivingSequenceNumber : Nat
  receivingPendingCounter : Nat
  receivingUnconfirmedFramesCounter : Nat
deriving Repr, DecidableEq

/-- The `Transceiver(behavior, mode, blockSize, rxSeparationTime,
txSeparationTime)` constructor (ISOTP.hpp lines 249-252): width 8 for
standard mode, 7 for extended. -/
def mkTransceiver (behavior : TBehavior) (mode : TMode)
    (blockSize rxSeparationTime txSeparationTime : Nat) : TransceiverState :=
  { behavior := behavior
    width := if mode = TMode.standard then 8 else 7
    blockSize := blockSize
    rxSeparationTime := rxSeparationTime
    txSeparationTime := txSeparationTime
    state := MachineState.idle
    sendingPayload := []
    sendingSequenceNumber := 0
    receivingPayload := []
    receivingSequenceNumber := 0
    receivingPendingCounter := 0
    receivingUnconfirmedFramesCounter := 0 }

/-- `Transceiver::reset` (ISOTP.hpp lines 330-338). -/
def isotpReset (t : TransceiverState) : TransceiverState :=
  { t with
    state := MachineState.idle
    sendingPayload := []
    sendingSequenceNumber := 0
    receivingPayload := []
    receivingSequenceNumber := 0
    receivingPendingCounter := 0
    receivingUnconfirmedFramesCounter := 0 }

/-- `Transceiver::writePDU` (ISOTP.hpp lines 255-278). -/
def isotpWritePDU (t : TransceiverState) (bytes : Bytes) : TransceiverState × TAction :=
  if bytes.length > isotpMaximumTransferSize then
    (t, pvAction "Exceeding maximum ISOTP transfer size.")
  else if t.state ≠ MachineState.idle then
    (t, pvAction "State machine not .idle")
  else if bytes.length < t.width then
    (t, { type := ActionType.writeFrames, frames := [frameSingle bytes t.width] })
  else
    ({ t with
        state := MachineState.sending
        sendingPayload := bytes.drop (t.width - 2)
        sendingSequenceNumber := 0x01 },
     { type := ActionType.writeFrames, frames := [frameFirst bytes.length bytes t.width] })

/-- The consecutive-frame burst loop inside the clear-to-send case of
`Transceiver::parseFlowControlFrame` (ISOTP.hpp lines 371-383), with the loop
bound as fuel. -/
def isotpSendBurst : Nat → TransceiverState → List Bytes → TransceiverState × List Bytes
  | 0, t, acc => (t, acc)
  | n + 1, t, acc =>
    let nextChunkSize := min (t.width - 1) t.sendingPayload.length
    let nextFrame :=
      frameConsecutive t.sendingSequenceNumber t.sendingPayload nextChunkSize t.width
    let t1 := { t with sendingPayload := t.sendingPayload.drop nextChunkSize }
    let acc1 := acc ++ [nextFrame]
    if t1.sendingPayload.isEmpty then (isotpReset t1, acc1)
    else
      isotpSendBurst n
        { t1 with sendingSequenceNumber := (t1.sendingSequenceNumber + 1) &&& 0x0F } acc1

/-- `Transceiver::parseFlowControlFrame` (ISOTP.hpp lines 357-402). -/
def isotpParseFlowControl (t : TransceiverState) (bytes : Bytes) :
    TransceiverState × TAction :=
  if bytes.length < 3 then
    (t, pvAction "Received FLOW CONTROL shorter than minimum length 3.")
  else if frameTypeOf bytes ≠ FrameType.flowControl then
    (t, pvAction "Unexpected frame type received while sending. Did expect FLOW CONTROL.")
  else
    match flowStatusOf bytes with
    | FlowStatus.clearToSend =>
      let numberOfUnconfirmedFrames :=
        if frameBlockSize bytes = 0 then isotpMaximumUnconfirmedBlocks
        else frameBlockSize bytes
      let r := isotpSendBurst numberOfUnconfirmedFrames t []
      (r.1, { type := ActionType.writeFrames
              frames := r.2
              separationTime := max (frameSeparationTime bytes) t.txSeparationTime })
    | FlowStatus.wait => (t, { type := ActionType.waitForMore })
    | FlowStatus.overflow => (t, pvAction "Received FLOW CONTROL w/ status OVERFLOW.")
    | FlowStatus.invalid => (t, pvAction "Received FLOW CONTROL w/ invalid status.")

/-- `Transceiver::parseDataFrame` (ISOTP.hpp lines 404-477). The
`receivingUnconfirmedFramesCounter` decrement is `uint16_t` arithmetic,
hence the explicit wrap-around. -/
def isotpParseData (t : TransceiverState) (bytes : Bytes) : TransceiverState × TAction :=
  match frameTypeOf bytes with
  | FrameType.single =>
    if t.state ≠ MachineState.idle then
      (t, pvAction "Did receive SINGLE while we're not idle.")
    else
      let pduLength := frameSingleLength bytes
      if pduLength = 0 then
        (t, pvAction "Did receive SINGLE with zero length in PCI.")
      else if pduLength > bytes.length - 1 then
        (t, pvAction "Did receive SINGLE with length exceeding payload.")
      else if pduLength > 7 then
        (t, pvAction "Did receive SINGLE with invalid length > 7.")
      else
        (t, { type := ActionType.process, data := (bytes.drop 1).take pduLength })
  | FrameType.first =>
    if t.state ≠ MachineState.idle then
      (t, pvAction "Did receive FIRST while we're not idle.")
    else if bytes.length ≠ t.width then
      (t, pvAction "Did receive FIRST that does not use full width.")
    else
      let pduLength := frameFirstLength bytes
      if pduLength < 8 then
        (t, pvAction "Did receive FIRST with invalid length < 8.")
      else
        ({ t with
            receivingPayload := bytes.drop 2
            receivingPendingCounter := pduLength - (t.width - 2)
            receivingUnconfirmedFramesCounter :=
              if t.blockSize = 0 then isotpMaximumUnconfirmedBlocks else t.blockSize
            state := MachineState.receiving
            receivingSequenceNumber := 0x01 },
         { type := ActionType.writeFrames
           frames := [frameFlowControl 0 t.blockSize (t.rxSeparationTime % 256) t.width] })
  | FrameType.consecutive =>
    if t.state ≠ MachineState.receiving then
      (t, pvAction "Did receive CONSECUTIVE while we're not receiving.")
    else if bytes.length ≠ t.width then
      (t, pvAction "Did receive CONSECUTIVE that does not use full width.")
    else if frameConsecutiveSeq bytes ≠ t.receivingSequenceNumber then
      (t, pvAction "Did receive CONSECUTIVE with unexpected sequence number.")
    else
      let stepLength := min (t.width - 1) t.receivingPendingCounter
      let t2 := { t with
        receivingSequenceNumber := (t.receivingSequenceNumber + 1) &&& 0x0F
        receivingPayload := t.receivingPayload ++ (bytes.drop 1).take stepLength
        receivingPendingCounter := t.receivingPendingCounter - stepLength }
      if t2.receivingPendingCounter = 0 then
        (isotpReset t2, { type := ActionType.process, data := t2.receivingPayload })
      else
        let t3 := { t2 with
          receivingUnconfirmedFramesCounter :=
            (t2.receivingUnconfirmedFramesCounter + 65535) % 65536 }
        if 0 < t3.receivingUnconfirmedFramesCounter then
          (t3, { type := ActionType.waitForMore })
        else
          ({ t3 with receivingUnconfirmedFramesCounter := t.blockSize },
           { type := ActionType.writeFrames
             frames := [frameFlowControl 0 t.blockSize (t.rxSeparationTime % 256) t.width] })
  | _ => (t, pvAction "Unexpected frame type received. Did expect SINGLE, FIRST, or CONSECUTIVE.")

/-- `Transceiver::didReceiveFrame` (ISOTP.hpp lines 281-323). -/
def isotpDidReceiveFrame (t : TransceiverState) (bytes : Bytes) :
    TransceiverState × TAction :=
  if bytes.isEmpty then (t, pvAction "Incoming frame is empty.")
  else if bytes.length > t.width then
    (t, pvAction "Incoming frame exceeds predefined width.")
  else
    match t.behavior with
    | TBehavior.strict =>
      if t.state = MachineState.sending then isotpParseFlowControl t bytes
      else isotpParseData t bytes
    | TBehavior.defensive =>
      let r := if t.state = MachineState.sending then isotpParseFlowControl t bytes
        else isotpParseData t bytes
      if r.2.type = ActionType.protocolViolation then
        let r2 := isotpParseData (isotpReset r.1) bytes
        if r2.2.type = ActionType.protocolViolation then
          (r2.1, { type := ActionType.waitForMore })
        else r2
      else r

/-! ## ISO-TP CAN-FD transceiver (ISOTPFD.hpp) -/

/-- `ISOTP::maximumFDStandardFrameWidth`. -/
def maximumFDStandardFrameWidth : Nat := 64

/-- `ISOTP::maximumFDExtendedFrameWidth`. -/
def maximumFDExtendedFrameWidth : Nat := 63

/-- Modelled from the spec: the constant `standardFrameWidth` referenced by
ISOTPFD.hpp is not defined in the provided sources; the spec (§4.C) fixes the
standard addressing mode at 8-byte frames. -/
def standardFrameWidth : Nat := 8

/-- Modelled from the spec: the constant `extendedFrameWidth` referenced by
ISOTPFD.hpp is not defined in the provided sources; the spec (§4.C) fixes the
extended addressing mode at 7 usable bytes. -/
def extendedFrameWidth : Nat := 7

/-- `ISOTP::isValidCANFDLength` (ISOTPFD.hpp lines 19-41). -/
def isValidCANFDLength (length : Nat) : Bool :=
  match length with
  | 0 | 1 | 2 | 3 | 4 | 5 | 6 | 7 | 8 | 12 | 16 | 20 | 24 | 32 | 48 | 64 => true
  | _ => false

/-- `ISOTP::nextValidCANFDLength` (ISOTPFD.hpp lines 43-52). -/
def nextValidCANFDLength (length : Nat) : Nat :=
  if length ≤ 8 then length
  else if length ≤ 12 then 12
  else if length ≤ 16 then 16
  else if length ≤ 20 then 20
  else if length ≤ 24 then 24
  else if length ≤ 32 then 32
  else if length ≤ 48 then 48
  else 64

/-- `ISOTP::defaultFDMaximumFrameWidth` (ISOTPFD.hpp lines 54-56). -/
def defaultFDMaximumFrameWidth (extendedMode : Bool) : Nat :=
  if extendedMode then maximumFDExtendedFrameWidth else maximumFDStandardFrameWidth

/-- `ISOTP::isValidFDFrameWidth` (ISOTPFD.hpp lines 58-65). -/
def isValidFDFrameWidth (width : Nat) (extendedMode : Bool) : Bool :=
  if extendedMode then
    if width > maximumFDExtendedFrameWidth then false
    else isValidCANFDLength (width + 1)
  else
    if width > maximumFDStandardFrameWidth then false
    else isValidCANFDLength width

/-- `ISOTP::nextValidFDFrameWidth` (ISOTPFD.hpp lines 67-73). -/
def nextValidFDFrameWidth (requiredWidth : Nat) (extendedMode : Bool) : Nat :=
  if extendedMode then nextValidCANFDLength (requiredWidth + 1) - 1
  else nextValidCANFDLength requiredWidth

/-- `ISOTP::singleFramePayloadCapacityFD` (ISOTPFD.hpp lines 75-77). -/
def singleFramePayloadCapacityFD (width : Nat) : Nat :=
  if width > standardFrameWidth then width - 2 else width - 1

/-- Whether a `Transceiver::Mode` is the extended addressing mode. -/
def TMode.isExtended : TMode → Bool
  | TMode.standard => false
  | TMode.extended => true

/-- State of `TransceiverFD` (ISOTPFD.hpp lines 235-250). -/
structure TransceiverFDState where
  behavior : TBehavior
  mode : TMode
  maxFrameWidth : Nat
  blockSize : Nat
  rxSeparationTime : Nat
  txSeparationTime : Nat
  state : MachineState
  sendingPayload : Bytes
  sendingPayloadOffset : Nat
  sendingSequenceNumber : Nat
  receivingPayload : Bytes
  receivingSequenceNumber : Nat
  receivingPendingCounter : Nat
  receivingUnconfirmedFramesCounter : Nat
deriving Repr, DecidableEq

/-- `TransceiverFD::resolveMaximumFrameWidth` (ISOTPFD.hpp lines 175-187). -/
def resolveMaximumFrameWidth (mode : TMode) (requestedWidth : Nat) : Nat :=
  let extendedMode := mode.isExtended
  let minimumWidth := if extendedMode then extendedFrameWidth else standardFrameWidth
  let maximumWidth := defaultFDMaximumFrameWidth extendedMode
  if requestedWidth = 0 then maximumWidth
  else
    let clamped := max minimumWidth (min requestedWidth maximumWidth)
    let clamped2 := if isValidFDFrameWidth clamped extendedMode then clamped
      else nextValidFDFrameWidth clamped extendedMode
    min clamped2 maximumWidth

/-- The `TransceiverFD(behavior, mode, blockSize, rxSeparationTime,
txSeparationTime, frameWidth)` constructor (ISOTPFD.hpp lines 97-100). -/
def mkTransceiverFD (behavior : TBehavior) (mode : TMode)
    (blockSize rxSeparationTime txSeparationTime frameWidth : Nat) :
    TransceiverFDState :=
  { behavior := behavior
    mode := mode
    maxFrameWidth := resolveMaximumFrameWidth mode frameWidth
    blockSize := blockSize
    rxSeparationTime := rxSeparationTime
    txSeparationTime := txSeparationTime
    state := MachineState.idle
    sendingPayload := []
    sendingPayloadOffset := 0
    sendingSequenceNumber := 0
    receivingPayload := []
    receivingSequenceNumber := 0
    receivingPendingCounter := 0
    receivingUnconfirmedFramesCounter := 0 }

/-- `TransceiverFD::reset` (ISOTPFD.hpp lines 163-172). -/
def fdReset (t : TransceiverFDState) : TransceiverFDState :=
  { t with
    state := MachineState.idle
    sendingPayload := []
    sendingPayloadOffset := 0
    sendingSequenceNumber := 0
    receivingPayload := []
    receivingSequenceNumber := 0
    receivingPendingCounter := 0
    receivingUnconfirmedFramesCounter := 0 }

/-- `TransceiverFD::dynamicFrameWidthFor` (ISOTPFD.hpp lines 189-192). -/
def fdDynamicFrameWidthFor (t : TransceiverFDState) (requiredBytes : Nat) : Nat :=
  min (nextValidFDFrameWidth requiredBytes t.mode.isExtended) t.maxFrameWidth

/-- `TransceiverFD::flowControlFrame` (ISOTPFD.hpp lines 194-197); the
`uint16_t` rxSeparationTime narrows to the `uint8_t` frame byte. -/
def fdFlowControlFrame (t : TransceiverFDState) : Bytes :=
  frameFlowControl 0 t.blockSize (t.rxSeparationTime % 256) (fdDynamicFrameWidthFor t 3)

/-- `TransceiverFD::singleFrame` (ISOTPFD.hpp lines 199-214): classic PCI for
payloads up to 7 bytes, escape form `0x00 ‖ length` for 8 and more; padded to
the dynamically chosen width. -/
def fdSingleFrame (t : TransceiverFDState) (bytes : Bytes) : Bytes :=
  let payloadSize := bytes.length % 256
  if payloadSize ≤ 0x07 then
    resizeTo ((0x00 ||| payloadSize) :: bytes)
      (fdDynamicFrameWidthFor t ((payloadSize + 1) % 256)) isotpPadding
  else
    resizeTo (0x00 :: payloadSize :: bytes)
      (fdDynamicFrameWidthFor t ((payloadSize + 2) % 256)) isotpPadding

/-- `TransceiverFD::firstFrame` (ISOTPFD.hpp lines 216-224). -/
def fdFirstFrame (t : TransceiverFDState) (pduLength : Nat) (bytes : Bytes)
    (payloadCount : Nat) : Bytes :=
  resizeTo ((0x10 ||| (pduLength >>> 8)) :: (pduLength &&& 0xFF) :: bytes.take payloadCount)
    (fdDynamicFrameWidthFor t ((payloadCount + 2) % 256)) isotpPadding

/-- `TransceiverFD::consecutiveFrame` (ISOTPFD.hpp lines 226-233). -/
def fdConsecutiveFrame (t : TransceiverFDState) (sequenceNumber : Nat) (bytes : Bytes)
    (offset count : Nat) : Bytes :=
  resizeTo ((0x20 ||| (sequenceNumber &&& 0x0F)) :: (bytes.drop offset).take count)
    (fdDynamicFrameWidthFor t ((count + 1) % 256)) isotpPadding

/-- `TransceiverFD::writePDU` (ISOTPFD.hpp lines 103-120). -/
def fdWritePDU (t : TransceiverFDState) (bytes : Bytes) : TransceiverFDState × TAction :=
  if bytes.length > isotpMaximumTransferSize then
    (t, pvAction "Exceeding maximum ISOTP transfer size.")
  else if t.state ≠ MachineState.idle then
    (t, pvAction "State machine not .idle")
  else if bytes.length ≤ singleFramePayloadCapacityFD t.maxFrameWidth then
    (t, { type := ActionType.writeFrames, frames := [fdSingleFrame t bytes] })
  else
    let firstPayload := min (t.maxFrameWidth - 2) bytes.length
    ({ t with
        state := MachineState.sending
        sendingPayload := bytes
        sendingPayloadOffset := firstPayload
        sendingSequenceNumber := 0x01 },
     { type := ActionType.writeFrames
       frames := [fdFirstFrame t (bytes.length % 65536) bytes firstPayload] })

/-- The consecutive-frame burst loop inside the clear-to-send case of
`TransceiverFD::parseFlowControlFrame` (ISOTPFD.hpp lines 275-294), with the
loop bound as fuel. -/
def fdSendBurst : Nat → TransceiverFDState → List Bytes → TransceiverFDState × List Bytes
  | 0, t, acc => (t, acc)
  | n + 1, t, acc =>
    let remaining := t.sendingPayload.length - t.sendingPayloadOffset
    if remaining = 0 then (fdReset t, acc)
    else
      let nextChunkSize := min (t.maxFrameWidth - 1) remaining
      let nextFrame :=
        fdConsecutiveFrame t t.sendingSequenceNumber t.sendingPayload
          t.sendingPayloadOffset nextChunkSize
      let t1 := { t with sendingPayloadOffset := t.sendingPayloadOffset + nextChunkSize }
      let acc1 := acc ++ [nextFrame]
      if t1.sendingPayload.length ≤ t1.sendingPayloadOffset then (fdReset t1, acc1)
      else
        fdSendBurst n
          { t1 with sendingSequenceNumber := (t1.sendingSequenceNumber + 1) &&& 0x0F } acc1

/-- `TransceiverFD::parseFlowControlFrame` (ISOTPFD.hpp lines 253-312). -/
def fdParseFlowControl (t : TransceiverFDState) (bytes : Bytes) :
    TransceiverFDState × TAction :=
  if bytes.length < 3 then
    (t, pvAction "Received FLOW CONTROL shorter than minimum length 3.")
  else if frameTypeOf bytes ≠ FrameType.flowControl then
    (t, pvAction "Unexpected frame type received while sending. Did expect FLOW CONTROL.")
  else
    match flowStatusOf bytes with
    | FlowStatus.clearToSend =>
      let numberOfUnconfirmedFrames :=
        if frameBlockSize bytes = 0 then 65535 else frameBlockSize bytes
      if t.sendingPayload.length < t.sendingPayloadOffset then
        (fdReset t, pvAction "Sending payload offset exceeds payload size.")
      else
        let r := fdSendBurst numberOfUnconfirmedFrames t []
        (r.1, { type := ActionType.writeFrames
                frames := r.2
                separationTime := max (frameSeparationTime bytes) t.txSeparationTime })
    | FlowStatus.wait => (t, { type := ActionType.waitForMore })
    | FlowStatus.overflow => (t, pvAction "Received FLOW CONTROL w/ status OVERFLOW.")
    | FlowStatus.invalid => (t, pvAction "Received FLOW CONTROL w/ invalid status.")

/-- `TransceiverFD::parseDataFrame` (ISOTPFD.hpp lines 314-400). -/
def fdParseData (t : TransceiverFDState) (bytes : Bytes) : TransceiverFDState × TAction :=
  match frameTypeOf bytes with
  | FrameType.single =>
    if t.state ≠ MachineState.idle then
      (t, pvAction "Did receive SINGLE while we're not idle.")
    else if bytes.length > standardFrameWidth ∧
        ((bytes.headD 0) &&& 0x0F ≠ 0 ∨ bytes.length < 2) then
      (t, pvAction "Did receive SINGLE with invalid CAN-FD single-frame PCI.")
    else
      let headerSize := if bytes.length > standardFrameWidth then 2 else 1
      let pduLength := if bytes.length > standardFrameWidth then bytes.getD 1 0
        else frameSingleLength bytes
      if pduLength = 0 then
        (t, pvAction "Did receive SINGLE with zero length in PCI.")
      else if pduLength > bytes.length - headerSize then
        (t, pvAction "Did receive SINGLE with length exceeding payload.")
      else if pduLength > singleFramePayloadCapacityFD bytes.length then
        (t, pvAction "Did receive SINGLE with invalid length for current frame width.")
      else
        (t, { type := ActionType.process, data := (bytes.drop headerSize).take pduLength })
  | FrameType.first =>
    if t.state ≠ MachineState.idle then
      (t, pvAction "Did receive FIRST while we're not idle.")
    else if bytes.length < 3 then
      (t, pvAction "Did receive FIRST shorter than minimum length 3.")
    else
      let pduLength := frameFirstLength bytes
      let firstPayloadLength := bytes.length - 2
      if pduLength ≤ firstPayloadLength then
        (t, pvAction "Did receive FIRST with invalid length <= first-frame payload.")
      else
        ({ t with
            receivingPayload := bytes.drop 2
            receivingPendingCounter := pduLength - firstPayloadLength
            receivingUnconfirmedFramesCounter :=
              if t.blockSize = 0 then 65535 else t.blockSize
            state := MachineState.receiving
            receivingSequenceNumber := 0x01 },
         { type := ActionType.writeFrames, frames := [fdFlowControlFrame t] })
  | FrameType.consecutive =>
    if t.state ≠ MachineState.receiving then
      (t, pvAction "Did receive CONSECUTIVE while we're not receiving.")
    else if bytes.length < 2 then
      (t, pvAction "Did receive CONSECUTIVE shorter than minimum length 2.")
    else if frameConsecutiveSeq bytes ≠ t.receivingSequenceNumber then
      (t, pvAction "Did receive CONSECUTIVE with unexpected sequence number.")
    else
      let stepLength := min (bytes.length - 1) t.receivingPendingCounter
      let t2 := { t with
        receivingSequenceNumber := (t.receivingSequenceNumber + 1) &&& 0x0F
        receivingPayload := t.receivingPayload ++ (bytes.drop 1).take stepLength
        receivingPendingCounter := t.receivingPendingCounter - stepLength }
      if t2.receivingPendingCounter = 0 then
        (fdReset t2, { type := ActionType.process, data := t2.receivingPayload })
      else
        let t3 := { t2 with
          receivingUnconfirmedFramesCounter :=
            (t2.receivingUnconfirmedFramesCounter + 65535) % 65536 }
        if 0 < t3.receivingUnconfirmedFramesCounter then
          (t3, { type := ActionType.waitForMore })
        else
          ({ t3 with receivingUnconfirmedFramesCounter :=
              if t.blockSize = 0 then 65535 else t.blockSize },
           { type := ActionType.writeFrames, frames := [fdFlowControlFrame t] })
  | _ => (t, pvAction "Unexpected frame type received. Did expect SINGLE, FIRST, or CONSECUTIVE.")

/-- `TransceiverFD::didReceiveFrame` (ISOTPFD.hpp lines 123-159). -/
def fdDidReceiveFrame (t : TransceiverFDState) (bytes : Bytes) :
    TransceiverFDState × TAction :=
  if bytes.isEmpty then (t, pvAction "Incoming frame is empty.")
  else if bytes.length > t.maxFrameWidth then
    (t, pvAction "Incoming frame exceeds configured CAN-FD width.")
  else if ¬ isValidFDFrameWidth bytes.length t.mode.isExtended then
    (t, pvAction "Incoming frame uses invalid CAN-FD DLC length.")
  else
    match t.behavior with
    | TBehavior.strict =>
      if t.state = MachineState.sending then fdParseFlowControl t bytes
      else fdParseData t bytes
    | TBehavior.defensive =>
      let r := if t.state = MachineState.sending then fdParseFlowControl t bytes
        else fdParseData t bytes
      if r.2.type = ActionType.protocolViolation then
        let r2 := fdParseData (fdReset r.1) bytes
        if r2.2.type = ActionType.protocolViolation then
          (r2.1, { type := ActionType.waitForMore })
        else r2
      else r

/-! ## Claim theorems: ISO-TP -/

/-- C5: the CAN-FD transceiver in standard mode with maximum frame width 64,
idle, on `writePDU` of 20 bytes of 0xA5 emits exactly one frame of 24 bytes:
PCI bytes 0x00 0x14, the 20 payload bytes, and two 0xAA padding bytes; the
transceiver stays idle. -/
theorem fd_single_frame_escape :
    (fdWritePDU (mkTransceiverFD TBehavior.defensive TMode.standard 0 0 0 64)
        (List.replicate 20 0xA5)).2 =
      { type := ActionType.writeFrames
        frames := [[0x00, 0x14] ++ List.replicate 20 0xA5 ++ [0xAA, 0xAA]] } ∧
    (fdWritePDU (mkTransceiverFD TBehavior.defensive TMode.standard 0 0 0 64)
        (List.replicate 20 0xA5)).1.state = MachineState.idle := by
  constructor
  · rfl
  · rfl

/-- Abbreviation for `x &&& 15` as a remainder, used for sequence nibbles. -/
theorem nat_and_fifteen (x : Nat) : x &&& 15 = x % 16 :=
  Nat.and_pow_two_sub_one_eq_mod x 4

/-- The consecutive-frame PCI `0x20 | s` for a nibble `s < 16`. -/
theorem nat_or_thirtytwo (s : Nat) (h : s < 16) : 32 ||| s = 32 + s := by
  interval_cases s <;> rfl

/-- The first-frame PCI high byte has high nibble 1. -/
theorem nat_or_sixteen_and (x : Nat) (h : x < 16) : (16 ||| x) &&& 240 = 16 := by
  interval_cases x <;> rfl

/-- Head byte of a padded frame starting with an explicit PCI byte. -/
theorem resizeTo_cons_headD (x : Nat) (l : Bytes) (w p : Nat) (h : 0 < w) :
    (resizeTo (x :: l) w p).headD 0 = x := by
  unfold resizeTo
  cases w with
  | zero => omega
  | succ w' => simp

/-- Characterization of the classic consecutive-frame burst: starting from a
sending state with a nonempty payload and sequence nibble `s < 16`, and
enough fuel, the burst emits `ceil(len / 7)` frames (for width 8) whose PCI
bytes are `0x20 | ((s + i) mod 16)`, and ends in the idle state. -/
theorem isotpSendBurst_spec : ∀ (n : Nat) (t : TransceiverState) (acc : List Bytes),
    t.width = 8 → t.sendingPayload ≠ [] → t.sendingSequenceNumber < 16 →
    (t.sendingPayload.length + 6) / 7 ≤ n →
    (isotpSendBurst n t acc).1.state = MachineState.idle ∧
    (isotpSendBurst n t acc).2.length = acc.length + (t.sendingPayload.length + 6) / 7 ∧
    (isotpSendBurst n t acc).2.map (fun f => f.headD 0) =
      acc.map (fun f => f.headD 0) ++
      (List.range ((t.sendingPayload.length + 6) / 7)).map
        (fun i => 0x20 + ((t.sendingSequenceNumber + i) % 16)) := by
  intro n
  induction n with
  | zero =>
    intro t acc _ hq _ hf
    exfalso
    have h1 : 1 ≤ t.sendingPayload.length := List.length_pos.mpr hq
    omega
  | succ n ih =>
    intro t acc hw hq hs hf
    have hlen : 1 ≤ t.sendingPayload.length := List.length_pos.mpr hq
    by_cases hr : t.sendingPayload.length ≤ 7
    · have hchunk : min (t.width - 1) t.sendingPayload.length =
        t.sendingPayload.length := by omega
      have hm : (t.sendingPayload.length + 6) / 7 = 1 := by omega
      simp only [isotpSendBurst, hchunk, List.drop_length, List.isEmpty_nil, if_true]
      refine ⟨by simp [isotpReset], by simp [hm], ?_⟩
      rw [hm]
      simp only [List.map_append, List.map_cons, List.map_nil]
      rw [frameConsecutive, hw,
        resizeTo_cons_headD _ _ 8 isotpPadding (by omega),
        nat_or_thirtytwo _ hs]
      simp [List.range_succ, Nat.mod_eq_of_lt hs]
    · have hchunk : min (t.width - 1) t.sendingPayload.length = 7 := by omega
      have hdlen : (t.sendingPayload.drop 7).length = t.sendingPayload.length - 7 :=
        List.length_drop 7 t.sendingPayload
      have hdne : t.sendingPayload.drop 7 ≠ [] := by
        intro h0
        rw [h0] at hdlen
        simp at hdlen
        omega
      have hie : (t.sendingPayload.drop 7).isEmpty = false := by
        cases h0 : t.sendingPayload.drop 7 with
        | nil => exact absurd h0 hdne
        | cons x xs => rfl
      simp only [isotpSendBurst, hchunk, hie, Bool.false_eq_true, if_false]
      have hs' : (t.sendingSequenceNumber + 1) &&& 15 < 16 := by
        have := Nat.and_le_right (n := t.sendingSequenceNumber + 1) (m := 15)
        omega
      have hfu : ((t.sendingPayload.drop 7).length + 6) / 7 ≤ n := by
        rw [hdlen]; omega
      obtain ⟨ih1, ih2, ih3⟩ :=
        ih { t with
              sendingPayload := t.sendingPayload.drop 7
              sendingSequenceNumber := (t.sendingSequenceNumber + 1) &&& 15 }
          (acc ++ [frameConsecutive t.sendingSequenceNumber t.sendingPayload 7 t.width])
          (by simpa using hw) (by simpa using hdne) (by simpa using hs')
          (by simpa using hfu)
      simp only at ih1 ih2 ih3
      refine ⟨ih1, ?_, ?_⟩
      · rw [ih2]
        simp only [List.length_append, List.length_cons, List.length_nil, hdlen]
        omega
      · rw [ih3]
        have hhead :
            (frameConsecutive t.sendingSequenceNumber t.sendingPayload 7 t.width).headD 0 =
              32 + t.sendingSequenceNumber := by
          rw [frameConsecutive, hw,
            resizeTo_cons_headD _ _ 8 isotpPadding (by omega),
            nat_or_thirtytwo _ hs]
        have hfun : (fun i => 32 + ((((t.sendingSequenceNumber + 1) &&& 15) + i) % 16)) =
            (fun i => 32 + ((t.sendingSequenceNumber + Nat.succ i) % 16)) := by
          funext i
          rw [nat_and_fifteen, Nat.mod_add_mod]
          omega
        have hsplit : (t.sendingPayload.length + 6) / 7 =
            ((t.sendingPayload.length - 7 + 6) / 7) + 1 := by omega
        rw [hsplit, List.range_succ_eq_map]
        simp only [List.map_append, List.map_cons, List.map_nil, List.map_map,
          Function.comp_def, hdlen, hhead, hfun]
        simp [List.append_assoc, Nat.mod_eq_of_lt hs]


/-- The sender of claim C4: a standard-mode (width 8) transceiver in its
initial idle state performing `writePDU(d)`. -/
def c4Sender (beh : TBehavior) (bs rxS txS : Nat) (d : Bytes) :
    TransceiverState × TAction :=
  isotpWritePDU (mkTransceiver beh TMode.standard bs rxS txS) d

/-- The C4 sender after receiving one FlowControl clear-to-send frame with
block size 0 (and separation time byte 0). -/
def c4AfterFC (beh : TBehavior) (bs rxS txS : Nat) (d : Bytes) :
    TransceiverState × TAction :=
  isotpDidReceiveFrame (c4Sender beh bs rxS txS d).1 [0x30, 0x00, 0x00]

/-- The sending-state reached by the C4 sender right after the First frame. -/
def c4SendingState (beh : TBehavior) (bs rxS txS : Nat) (d : Bytes) : TransceiverState :=
  { behavior := beh
    width := 8
    blockSize := bs
    rxSeparationTime := rxS
    txSeparationTime := txS
    state := MachineState.sending
    sendingPayload := d.drop 6
    sendingSequenceNumber := 1
    receivingPayload := []
    receivingSequenceNumber := 0
    receivingPendingCounter := 0
    receivingUnconfirmedFramesCounter := 0 }

/-- C4: for 7 < |d| ≤ 4095, the classic transceiver (standard mode, width 8,
idle) emits on `writePDU(d)` exactly one First frame, and on a subsequent
FlowControl clear-to-send with block size 0 exactly ceil((|d|−6)/7)
Consecutive frames whose sequence nibbles start at 1 and increment modulo 16;
the machine ends idle. -/
theorem isotp_segmentation (beh : TBehavior) (bs rxS txS : Nat) (d : Bytes)
    (h7 : 7 < d.length) (h4095 : d.length ≤ 4095) :
    (c4Sender beh bs rxS txS d).2.type = ActionType.writeFrames ∧
    (c4Sender beh bs rxS txS d).2.frames = [frameFirst d.length d 8] ∧
    (((c4Sender beh bs rxS txS d).2.frames.headD []).headD 0) &&& 0xF0 = 0x10 ∧
    (c4AfterFC beh bs rxS txS d).2.type = ActionType.writeFrames ∧
    (c4AfterFC beh bs rxS txS d).2.frames.length = (d.length - 6 + 6) / 7 ∧
    (c4AfterFC beh bs rxS txS d).2.frames.map (fun f => f.headD 0) =
      (List.range ((d.length - 6 + 6) / 7)).map (fun i => 0x20 + ((1 + i) % 16)) ∧
    (c4AfterFC beh bs rxS txS d).1.state = MachineState.idle := by
  have hsender : c4Sender beh bs rxS txS d =
      (c4SendingState beh bs rxS txS d,
       { type := ActionType.writeFrames, frames := [frameFirst d.length d 8] }) := by
    unfold c4Sender isotpWritePDU
    rw [if_neg (by simp only [isotpMaximumTransferSize]; omega),
      if_neg (by simp [mkTransceiver]),
      if_neg (by simp [mkTransceiver]; omega)]
    simp [mkTransceiver, c4SendingState]
  have hdne : d.drop 6 ≠ [] := by
    intro h0
    have := List.length_drop 6 d
    rw [h0] at this
    simp at this
    omega
  have hburst := isotpSendBurst_spec 1000 (c4SendingState beh bs rxS txS d) []
    (by simp [c4SendingState]) (by simpa [c4SendingState] using hdne)
    (by simp [c4SendingState])
    (by simp only [c4SendingState, List.length_drop]; omega)
  have hfc : isotpParseFlowControl (c4SendingState beh bs rxS txS d) [0x30, 0x00, 0x00] =
      ((isotpSendBurst 1000 (c4SendingState beh bs rxS txS d) []).1,
       { type := ActionType.writeFrames
         frames := (isotpSendBurst 1000 (c4SendingState beh bs rxS txS d) []).2
         separationTime := max 0 txS }) := by
    unfold isotpParseFlowControl
    rw [if_neg (by simp)]
    rw [if_neg (by simp [frameTypeOf])]
    have hst : flowStatusOf [0x30, 0x00, 0x00] = FlowStatus.clearToSend := rfl
    rw [hst]
    simp [frameBlockSize, frameSeparationTime, separationTimeToMicroseconds,
      isotpMaximumUnconfirmedBlocks, c4SendingState]
  have hafter : c4AfterFC beh bs rxS txS d =
      ((isotpSendBurst 1000 (c4SendingState beh bs rxS txS d) []).1,
       { type := ActionType.writeFrames
         frames := (isotpSendBurst 1000 (c4SendingState beh bs rxS txS d) []).2
         separationTime := max 0 txS }) := by
    unfold c4AfterFC
    rw [hsender]
    unfold isotpDidReceiveFrame
    rw [if_neg (by simp)]
    rw [if_neg (by simp [c4SendingState])]
    have hstate : (c4SendingState beh bs rxS txS d).state = MachineState.sending := rfl
    cases hbeh : (c4SendingState beh bs rxS txS d).behavior with
    | strict =>
      rw [if_pos hstate, hfc]
    | defensive =>
      rw [if_pos hstate, hfc]
      simp
  obtain ⟨hb1, hb2, hb3⟩ := hburst
  simp only [c4SendingState, List.length_drop, List.length_nil, List.map_nil,
    List.nil_append, Nat.zero_add] at hb1 hb2 hb3
  refine ⟨?_, ?_, ?_, ?_, ?_, ?_, ?_⟩
  · rw [hsender]
  · rw [hsender]
  · rw [hsender]
    simp only [List.headD_cons]
    rw [frameFirst]
    simp only [List.headD_cons]
    have hx : d.length >>> 8 < 16 := by
      rw [Nat.shiftRight_eq_div_pow]
      omega
    exact nat_or_sixteen_and _ hx
  · rw [hafter]
  · rw [hafter]
    exact hb2
  · rw [hafter]
    exact hb3
  · rw [hafter]
    exact hb1

/-- C4 witness: 16 bytes 0x00..0x0F, strict behavior, default configuration:
two consecutive frames with sequence nibbles 1 and 2. -/
theorem isotp_segmentation_witness :
    7 < ([0, 1, 2, 3, 4, 5, 6, 7, 8, 9, 10, 11, 12, 13, 14, 15] : Bytes).length ∧
    ([0, 1, 2, 3, 4, 5, 6, 7, 8, 9, 10, 11, 12, 13, 14, 15] : Bytes).length ≤ 4095 ∧
    (c4AfterFC TBehavior.strict 0 0 0
      [0, 1, 2, 3, 4, 5, 6, 7, 8, 9, 10, 11, 12, 13, 14, 15]).2.frames.length =
      (([0, 1, 2, 3, 4, 5, 6, 7, 8, 9, 10, 11, 12, 13, 14, 15] : Bytes).length - 6 + 6) / 7 :=
  ⟨by decide, by decide,
   (isotp_segmentation TBehavior.strict 0 0 0
     [0, 1, 2, 3, 4, 5, 6, 7, 8, 9, 10, 11, 12, 13, 14, 15]
     (by decide) (by decide)).2.2.2.2.1⟩

/-- Well-formedness of a classic transceiver state: when idle, the buffers
and counters are cleared. This holds for a freshly constructed transceiver
and is preserved by the machine, so it characterizes the reachable idle
states. -/
def wfClassic (t : TransceiverState) : Prop :=
  t.state = MachineState.idle →
    t.sendingPayload = [] ∧ t.sendingSequenceNumber = 0 ∧
    t.receivingPayload = [] ∧ t.receivingSequenceNumber = 0 ∧
    t.receivingPendingCounter = 0 ∧ t.receivingUnconfirmedFramesCounter = 0

/-- Well-formedness of a CAN-FD transceiver state, as for the classic one. -/
def wfFD (t : TransceiverFDState) : Prop :=
  t.state = MachineState.idle →
    t.sendingPayload = [] ∧ t.sendingPayloadOffset = 0 ∧
    t.sendingSequenceNumber = 0 ∧
    t.receivingPayload = [] ∧ t.receivingSequenceNumber = 0 ∧
    t.receivingPendingCounter = 0 ∧ t.receivingUnconfirmedFramesCounter = 0

theorem isotpWritePDU_no_process (t : TransceiverState) (b : Bytes) :
    (isotpWritePDU t b).2.type ≠ ActionType.process := by
  unfold isotpWritePDU
  split_ifs <;> simp [pvAction]

theorem isotpParseFlowControl_no_process (t : TransceiverState) (b : Bytes) :
    (isotpParseFlowControl t b).2.type ≠ ActionType.process := by
  unfold isotpParseFlowControl
  split_ifs <;> try simp [pvAction]
  all_goals cases flowStatusOf b <;> simp [pvAction]

theorem isotpParseData_process (t : TransceiverState) (b : Bytes) (hwf : wfClassic t) :
    (isotpParseData t b).2.type = ActionType.process →
    (isotpParseData t b).1.state = MachineState.idle ∧
    wfClassic (isotpParseData t b).1 := by
  unfold isotpParseData
  cases hft : frameTypeOf b <;> simp only
  case single =>
    split_ifs with h1 h2 h3 h4 <;> intro hp <;> simp [pvAction] at hp
    exact ⟨by simpa using h1, hwf⟩
  case first =>
    split_ifs <;> intro hp <;> simp [pvAction] at hp
  case consecutive =>
    split_ifs <;> intro hp <;> simp [pvAction] at hp
    refine ⟨rfl, ?_⟩
    intro _
    simp [isotpReset]
  case flowControl =>
    intro hp
    simp [pvAction] at hp
  case invalid =>
    intro hp
    simp [pvAction] at hp

theorem isotpDidReceiveFrame_process (t : TransceiverState) (b : Bytes)
    (hwf : wfClassic t) :
    (isotpDidReceiveFrame t b).2.type = ActionType.process →
    (isotpDidReceiveFrame t b).1.state = MachineState.idle ∧
    wfClassic (isotpDidReceiveFrame t b).1 := by
  simp only [isotpDidReceiveFrame]
  split_ifs <;> try (intro hp; simp [pvAction] at hp)
  all_goals cases t.behavior <;> simp only [] <;>
    first
      | exact isotpParseData_process t b hwf
      | exact isotpParseData_process _ b (by intro _; simp [isotpReset])
      | (intro hp; exact absurd hp (isotpParseFlowControl_no_process t b))
      | (intro hp; exact absurd hp (by simp))

theorem fdWritePDU_no_process (t : TransceiverFDState) (b : Bytes) :
    (fdWritePDU t b).2.type ≠ ActionType.process := by
  unfold fdWritePDU
  split_ifs <;> simp [pvAction]

theorem fdParseFlowControl_no_process (t : TransceiverFDState) (b : Bytes) :
    (fdParseFlowControl t b).2.type ≠ ActionType.process := by
  unfold fdParseFlowControl
  split_ifs <;> try simp [pvAction]
  all_goals cases flowStatusOf b <;>
    first
      | (split_ifs <;> simp [pvAction])
      | simp [pvAction]

theorem fdParseData_process (t : TransceiverFDState) (b : Bytes) (hwf : wfFD t) :
    (fdParseData t b).2.type = ActionType.process →
    (fdParseData t b).1.state = MachineState.idle ∧
    wfFD (fdParseData t b).1 := by
  unfold fdParseData
  cases hft : frameTypeOf b <;> simp only
  case single =>
    split_ifs with h1 <;> intro hp <;> simp [pvAction] at hp <;>
      exact ⟨by simpa using h1, hwf⟩
  case first =>
    split_ifs <;> intro hp <;> simp [pvAction] at hp
  case consecutive =>
    split_ifs <;> intro hp <;> simp [pvAction] at hp <;>
      (refine ⟨rfl, ?_⟩; intro _; simp [fdReset])
  case flowControl =>
    intro hp
    simp [pvAction] at hp
  case invalid =>
    intro hp
    simp [pvAction] at hp

theorem fdDidReceiveFrame_process (t : TransceiverFDState) (b : Bytes)
    (hwf : wfFD t) :
    (fdDidReceiveFrame t b).2.type = ActionType.process →
    (fdDidReceiveFrame t b).1.state = MachineState.idle ∧
    wfFD (fdDidReceiveFrame t b).1 := by
  simp only [fdDidReceiveFrame]
  split_ifs <;> try (intro hp; simp [pvAction] at hp)
  all_goals cases t.behavior <;> simp only [] <;>
    first
      | exact fdParseData_process t b hwf
      | exact fdParseData_process _ b (by intro _; simp [fdReset])
      | (intro hp; exact absurd hp (fdParseFlowControl_no_process t b))
      | (intro hp; exact absurd hp (by simp))

/-- C9: in both the classic and the CAN-FD ISO-TP transceiver, whenever
`writePDU` or `didReceiveFrame` returns a process action, the machine state
afterwards is idle, and — for any state whose idle configuration has cleared
buffers and counters (which covers every reachable state) — the buffers and
counters are again cleared, so a completed transfer leaves the machine ready
for a new one. `writePDU` in fact never returns process. -/
theorem isotp_process_leaves_idle :
    (∀ (t : TransceiverState) (b : Bytes),
      (isotpWritePDU t b).2.type = ActionType.process →
        (isotpWritePDU t b).1.state = MachineState.idle) ∧
    (∀ (t : TransceiverState) (b : Bytes), wfClassic t →
      (isotpDidReceiveFrame t b).2.type = ActionType.process →
        (isotpDidReceiveFrame t b).1.state = MachineState.idle ∧
        wfClassic (isotpDidReceiveFrame t b).1) ∧
    (∀ (t : TransceiverFDState) (b : Bytes),
      (fdWritePDU t b).2.type = ActionType.process →
        (fdWritePDU t b).1.state = MachineState.idle) ∧
    (∀ (t : TransceiverFDState) (b : Bytes), wfFD t →
      (fdDidReceiveFrame t b).2.type = ActionType.process →
        (fdDidReceiveFrame t b).1.state = MachineState.idle ∧
        wfFD (fdDidReceiveFrame t b).1) :=
  ⟨fun t b hp => absurd hp (isotpWritePDU_no_process t b),
   fun t b hwf => isotpDidReceiveFrame_process t b hwf,
   fun t b hp => absurd hp (fdWritePDU_no_process t b),
   fun t b hwf => fdDidReceiveFrame_process t b hwf⟩

/-- C9 witness: a single frame [0x02, 0x11, 0x22] delivered to fresh classic
and CAN-FD transceivers is processed and leaves both idle. -/
theorem isotp_process_leaves_idle_witness :
    wfClassic (mkTransceiver TBehavior.strict TMode.standard 0 0 0) ∧
    (isotpDidReceiveFrame (mkTransceiver TBehavior.strict TMode.standard 0 0 0)
      [0x02, 0x11, 0x22]).2.type = ActionType.process ∧
    ((isotpDidReceiveFrame (mkTransceiver TBehavior.strict TMode.standard 0 0 0)
      [0x02, 0x11, 0x22]).1.state = MachineState.idle ∧
     wfClassic (isotpDidReceiveFrame (mkTransceiver TBehavior.strict TMode.standard 0 0 0)
      [0x02, 0x11, 0x22]).1) ∧
    wfFD (mkTransceiverFD TBehavior.strict TMode.standard 0 0 0 64) ∧
    (fdDidReceiveFrame (mkTransceiverFD TBehavior.strict TMode.standard 0 0 0 64)
      [0x02, 0x11, 0x22]).2.type = ActionType.process ∧
    ((fdDidReceiveFrame (mkTransceiverFD TBehavior.strict TMode.standard 0 0 0 64)
      [0x02, 0x11, 0x22]).1.state = MachineState.idle ∧
     wfFD (fdDidReceiveFrame (mkTransceiverFD TBehavior.strict TMode.standard 0 0 0 64)
      [0x02, 0x11, 0x22]).1) :=
  ⟨fun _ => ⟨rfl, rfl, rfl, rfl, rfl, rfl⟩, by decide,
   isotp_process_leaves_idle.2.1 (mkTransceiver TBehavior.strict TMode.standard 0 0 0)
     [0x02, 0x11, 0x22] (fun _ => ⟨rfl, rfl, rfl, rfl, rfl, rfl⟩) (by decide),
   fun _ => ⟨rfl, rfl, rfl, rfl, rfl, rfl, rfl⟩, by decide,
   isotp_process_leaves_idle.2.2.2 (mkTransceiverFD TBehavior.strict TMode.standard 0 0 0 64)
     [0x02, 0x11, 0x22] (fun _ => ⟨rfl, rfl, rfl, rfl, rfl, rfl, rfl⟩) (by decide)⟩
